import Mathlib

/-!
# Verification of the discordSend dispatch scheduler

Shallow embedding of the scheduling core of the `discordSend` backend
(`backend/auto_sender.py` and `backend/bot.py`) together with proofs of the
spec's testable properties.

Conventions of the embedding:
* Python dictionaries holding the cooldown table become association lists
  (most recent insertion first, lookup takes the first hit).
* `time.time()` becomes an explicit integer clock argument.
* Python values that can be either `int` or `str` (account ids, channel ids)
  become the sum type `PyVal`; Python's `int(x)` becomes the partial parse
  `PyVal.toInt?` and `str(x)` becomes `PyVal.toStr`.
* The module-level globals of `auto_sender.py` (`task_status`,
  `stop_sender_event`, `stop_sender_reason`) become explicit state threaded
  through the functions; the injected `db` handle becomes an
  `Option PersistedState` value that `save_sender_task_state` /
  `clear_sender_task_state` replace.
* The `while` loop of `auto_send_loop` becomes structural recursion on a
  fuel argument instantiated with `products.length - product_idx`, which is
  exact: the loop body strictly increases `product_idx` and exits as soon as
  `product_idx ≥ len(products)`, so the fuel runs out precisely when the
  loop condition would stop the Python loop.
* Network effects (`channel.send`, `get_channel`) are an oracle
  `send : Nat → SendOutcome` indexed by the iteration counter, and the
  interruptible wait on `stop_sender_event` is the oracle
  `signalAt : Nat → Bool` (true when the stop event is set during the wait
  that follows iteration `i`).
-/

/-- A Python value that may be an `int` or a `str` (account and channel ids
arrive in both shapes). -/
inductive PyVal where
  | int (n : Int)
  | str (s : String)
deriving DecidableEq

/-- Numeric value of a list of decimal digits. -/
def digitsVal (cs : List Char) : Int :=
  cs.foldl (fun acc c => acc * 10 + ((c.toNat - '0'.toNat : Nat) : Int)) 0

/-- Python `int(s)` on a string: optional sign followed by decimal digits,
`none` models a raised `ValueError`. -/
def parseIntStr (s : String) : Option Int :=
  match s.toList with
  | [] => none
  | '-' :: rest =>
    if rest ≠ [] ∧ rest.all Char.isDigit then some (-(digitsVal rest)) else none
  | cs =>
    if cs.all Char.isDigit then some (digitsVal cs) else none

/-- Python `int(x)`; fails (`none`) when the string form is not numeric. -/
def PyVal.toInt? : PyVal → Option Int
  | .int n => some n
  | .str s => parseIntStr s

/-- Python `str(x)`. -/
def PyVal.toStr : PyVal → String
  | .int n => toString n
  | .str s => s

/-- The key shape of the global `account_last_sent` dictionary in `bot.py`:
`(int(account_id), str(channel_id))`. -/
abbrev CooldownKey := Int × String

/-- The `account_last_sent` dictionary: association list from key to the
last-send timestamp, most recent insertion first. -/
abbrev CooldownTbl := List (CooldownKey × Int)

/-- Dictionary lookup `account_last_sent.get(key)`. -/
def tblGet (tbl : CooldownTbl) (k : CooldownKey) : Option Int :=
  (tbl.find? (fun e => e.1 = k)).map (·.2)

/-- Dictionary store `account_last_sent[key] = v`. -/
def tblSet (tbl : CooldownTbl) (k : CooldownKey) (v : Int) : CooldownTbl :=
  (k, v) :: tbl

/-- `bot.is_account_on_cooldown(account_id, channel_id, interval)`: the key is
`(int(account_id), str(channel_id))`, a missing entry defaults to `0`, and the
result is `time.time() - last < interval`.  `now` is the clock; `none` models
the `ValueError` raised by `int()` on a non-numeric account id. -/
def is_account_on_cooldown (tbl : CooldownTbl) (account_id channel_id : PyVal)
    (interval : Int) (now : Int) : Option Bool :=
  (account_id.toInt?).map fun ai =>
    let key : CooldownKey := (ai, channel_id.toStr)
    let last := (tblGet tbl key).getD 0
    decide (now - last < interval)

/-- `bot.set_account_cooldown(account_id, channel_id)`: stores `time.time()`
under `(int(account_id), str(channel_id))`. -/
def set_account_cooldown (tbl : CooldownTbl) (account_id channel_id : PyVal)
    (now : Int) : Option CooldownTbl :=
  (account_id.toInt?).map fun ai =>
    tblSet tbl (ai, channel_id.toStr) now

/-! ## The send stage of `DiscordBot.schedule_reply` (`bot.py` 529-565)

After a sender has been selected, the code attempts the rich send
(`target_channel.send(content=…, files=…, reference=message,
mention_author=True)`), marks the cooldown on success, and on any exception
falls back to `target_channel.send(response_content)` — but only when
`response_content` is non-empty — marking the cooldown when the fallback block
completes; a failure of the fallback send escapes to the enclosing handler
which only logs.  The model records every `channel.send` call, the calls that
completed, and every `set_account_cooldown` call. -/

/-- One `channel.send` call made by the reply path: `rich` is true for the
reference/reply form, `content` is the text (empty string for Python
`None`/`''`) and `files` the number of attached files. -/
structure SendCall where
  rich : Bool
  content : String
  files : Nat
deriving DecidableEq

/-- Observable effects of the send stage of `schedule_reply`. -/
structure ReplyOutcome where
  /-- every `channel.send` call attempted, in order -/
  calls : List SendCall
  /-- the calls that returned without raising -/
  delivered : List SendCall
  /-- arguments of every `set_account_cooldown` call -/
  cooldownMarks : List (Int × Int)
  /-- true when the enclosing handler logged the exception (total failure) -/
  errorLogged : Bool
deriving DecidableEq

/-- The `set_account_cooldown` calls guarded by
`hasattr(target_client, 'account_id') and target_client.account_id`
(`account_id = none` models the missing attribute, `0` is falsy). -/
def markIf (account_id : Option Int) (channel_id : Int) : List (Int × Int) :=
  match account_id with
  | some a => if a ≠ 0 then [(a, channel_id)] else []
  | none => []

/-- The send stage of `schedule_reply` (`bot.py` 522-562): `content` is
`response_content`, `files` the number of collected attachment files,
`richOk` / `plainOk` tell whether the corresponding `channel.send` await
returns normally or raises. -/
def reply_send_stage (account_id : Option Int) (channel_id : Int)
    (content : String) (files : Nat) (richOk plainOk : Bool) : ReplyOutcome :=
  if content = "" ∧ files = 0 then
    -- `if not response_content and not files: return` (nothing to send)
    ⟨[], [], [], false⟩
  else
    let richCall : SendCall := ⟨true, content, files⟩
    if richOk then
      ⟨[richCall], [richCall], markIf account_id channel_id, false⟩
    else if content ≠ "" then
      let plainCall : SendCall := ⟨false, content, 0⟩
      if plainOk then
        ⟨[richCall, plainCall], [plainCall], markIf account_id channel_id, false⟩
      else
        -- the fallback send raised: the outer handler only logs
        ⟨[richCall, plainCall], [], [], true⟩
    else
      -- no text content: the fallback skips the send but still marks cooldown
      ⟨[richCall], [], markIf account_id channel_id, false⟩

/-! ## The campaign state of `auto_sender.py` -/

/-- The module-level `task_status` dictionary of `auto_sender.py`. -/
structure TaskStatus where
  is_running : Bool
  is_paused : Bool
  shop_id : Option Int
  channel_id : Option String
  account_ids : List Int
  interval : Option Int
  total_products : Nat
  sent_count : Nat
  current_product : Option String
  current_account : Option String
  started_at : Option String
  last_sent_at : Option String
  error : Option String
  next_product_index : Nat
  next_account_index : Nat
deriving DecidableEq

/-- The dictionary written by `reset_task_status()` (also the initial value of
`task_status`). -/
def initTaskStatus : TaskStatus :=
  ⟨false, false, none, none, [], none, 0, 0, none, none, none, none, none, 0, 0⟩

/-- The record written by `db.save_sender_task_state` (`_persist_task_state`
saves every field of `task_status` except `error`). -/
structure PersistedState where
  is_running : Bool
  is_paused : Bool
  shop_id : Option Int
  channel_id : Option String
  account_ids : List Int
  interval : Option Int
  total_products : Nat
  sent_count : Nat
  next_product_index : Nat
  next_account_index : Nat
  current_product : Option String
  current_account : Option String
  started_at : Option String
  last_sent_at : Option String
deriving DecidableEq

/-- `_persist_task_state(db)`: the record stored for the current
`task_status`. -/
def persistOf (st : TaskStatus) : PersistedState :=
  ⟨st.is_running, st.is_paused, st.shop_id, st.channel_id, st.account_ids,
   st.interval, st.total_products, st.sent_count, st.next_product_index,
   st.next_account_index, st.current_product, st.current_account,
   st.started_at, st.last_sent_at⟩

/-- Python truthiness of the optional integer `state.get('shop_id')`
(`None` and `0` are falsy). -/
def truthyOptInt : Option Int → Bool
  | some n => n ≠ 0
  | none => false

/-- Python truthiness of the optional string `state.get('channel_id')`
(`None` and `''` are falsy). -/
def truthyOptStr : Option String → Bool
  | some s => s ≠ ""
  | none => false

/-- `auto_sender.load_task_state(db)`: takes the current `task_status` and the
stored record, returns the new `task_status` and the new stored record.  A
missing record, or one whose `shop_id`/`channel_id` is falsy, is ignored;
otherwise the status is rebuilt from the record, and a record marked running
is reclassified to paused and re-persisted. -/
def load_task_state (st : TaskStatus) (db : Option PersistedState) :
    TaskStatus × Option PersistedState :=
  match db with
  | none => (st, db)
  | some state =>
    if truthyOptInt state.shop_id ∧ truthyOptStr state.channel_id then
      let st1 := { initTaskStatus with
        shop_id := state.shop_id
        channel_id := state.channel_id
        account_ids := state.account_ids
        interval := state.interval
        total_products := state.total_products
        sent_count := state.sent_count
        current_product := state.current_product
        current_account := state.current_account
        started_at := state.started_at
        last_sent_at := state.last_sent_at
        next_product_index := state.next_product_index
        next_account_index := state.next_account_index }
      if state.is_running then
        let st2 := { st1 with is_running := false, is_paused := true }
        (st2, some (persistOf st2))
      else
        ({ st1 with is_paused := state.is_paused }, db)
    else
      (st, db)

/-- One `discord` client from the `bot_clients` list, reduced to the
attributes the scheduler inspects: `account_id = none` models a client
without the attribute, `ready`/`closed` are `is_ready()`/`is_closed()`, and
`user` is the display name (`none` when `client.user` is `None`). -/
structure BotClient where
  account_id : Option Int
  ready : Bool
  closed : Bool
  user : Option String
deriving DecidableEq

/-- `auto_sender._has_online_bots(bot_clients, account_ids)`. -/
def _has_online_bots (bot_clients : List BotClient) (account_ids : List Int) :
    Bool :=
  if account_ids.isEmpty then false
  else bot_clients.any fun c =>
    (match c.account_id with
     | some a => account_ids.contains a
     | none => false)
    && c.ready && !c.closed

/-- The result dictionary of the control functions
(`{'success': …, 'error'/'message': …}`). -/
structure StartReply where
  success : Bool
  message : String
deriving DecidableEq

/-- The arguments of the `auto_send_loop` coroutine submitted to the bot event
loop by `start_sending_task`. -/
structure LoopArgs where
  shop_id : Int
  channel_id : String
  account_ids : List Int
  interval : Int
  start_product_index : Int
  start_account_index : Int
deriving DecidableEq

/-- The module-level mutable state of `auto_sender.py` that the control
surface touches: the stop event, the stop reason and `task_status`. -/
structure SenderGlobals where
  eventSet : Bool
  reason : Option String
  status : TaskStatus
deriving DecidableEq

/-- `auto_sender.start_sending_task(...)` (the synchronous part): rejects when
a task is running, or paused and not resuming; otherwise clears the stop
event, resets and refills `task_status`, and submits the loop coroutine
(returned as `LoopArgs`). -/
def start_sending_task (g : SenderGlobals) (shop_id : Int) (channel_id : String)
    (account_ids : List Int) (interval : Int)
    (start_product_index start_account_index : Int) (resume : Bool) :
    StartReply × SenderGlobals × Option LoopArgs :=
  if g.status.is_running ∨ (g.status.is_paused ∧ ¬resume) then
    (⟨false, "已有任务正在运行或已暂停，请先停止或继续"⟩, g, none)
  else
    let st := { initTaskStatus with
      shop_id := some shop_id
      channel_id := some channel_id
      account_ids := account_ids
      interval := some interval
      next_product_index := start_product_index.toNat
      next_account_index := start_account_index.toNat
      sent_count := if resume then start_product_index.toNat else 0 }
    (⟨true, "自动发送任务已启动"⟩, ⟨false, none, st⟩,
     some ⟨shop_id, channel_id, account_ids, interval,
           start_product_index, start_account_index⟩)

/-- `auto_sender.resume_sending_task(db, bot_clients, bot_loop)`: requires a
stored record with truthy `shop_id` and `channel_id`, no running task, and at
least one configured account online; on success delegates to
`start_sending_task` with `resume=True` and the stored cursors.  The stored
record is returned unchanged in every branch (the function never saves or
clears it). -/
def resume_sending_task (g : SenderGlobals) (db : Option PersistedState)
    (bot_clients : List BotClient) :
    StartReply × SenderGlobals × Option PersistedState × Option LoopArgs :=
  match db with
  | none => (⟨false, "没有可继续的任务"⟩, g, db, none)
  | some state =>
    if truthyOptInt state.shop_id ∧ truthyOptStr state.channel_id then
      if g.status.is_running then
        (⟨false, "任务正在运行中"⟩, g, db, none)
      else
        let account_ids := state.account_ids
        if _has_online_bots bot_clients account_ids then
          let interval := match state.interval with
            | some v => if v = 0 then 60 else v
            | none => 60
          let r := start_sending_task g (state.shop_id.getD 0)
            (state.channel_id.getD "") account_ids interval
            (state.next_product_index : Int) (state.next_account_index : Int)
            true
          (r.1, r.2.1, db, r.2.2)
        else
          (⟨false, "没有选中的账号在线，请先启动账号"⟩, g, db, none)
    else
      (⟨false, "没有可继续的任务"⟩, g, db, none)

/-! ## The campaign loop `auto_send_loop` -/

/-- The shop row returned by `db.get_shop_by_id` (only the `name` field is
read, via `shop_info.get('name', '')`). -/
structure ShopInfo where
  name : Option String
deriving DecidableEq

/-- One row of the `products` query
(`SELECT id, product_url, title, cnfans_url, item_id FROM products …`);
`acbuy_url` is not selected, so `product.get('acbuy_url')` is `None`. -/
structure Product where
  id : Int
  product_url : String
  title : String
  cnfans_url : Option String
  item_id : Option String
deriving DecidableEq

/-- `re.search(r'itemID=(\d+)', url)`: leftmost occurrence of the literal
`itemID=` followed by at least one digit; returns the digit group. -/
def searchItemID : List Char → Option (List Char)
  | [] => none
  | c :: rest =>
    if "itemID=".toList.isPrefixOf (c :: rest) then
      let ds := ((c :: rest).drop 7).takeWhile Char.isDigit
      if ds.isEmpty then searchItemID rest else some ds
    else searchItemID rest

/-- `re.search(r'[?&]id=(\d+)', url)`: leftmost `?id=` or `&id=` followed by
at least one digit; returns the digit group. -/
def searchAmpId : List Char → Option (List Char)
  | [] => none
  | c :: rest =>
    if (c = '?' ∨ c = '&') ∧ "id=".toList.isPrefixOf rest then
      let ds := (rest.drop 3).takeWhile Char.isDigit
      if ds.isEmpty then searchAmpId rest else some ds
    else searchAmpId rest

/-- The url fallback of `_extract_item_id`:
`url = product_url or cnfans_url or acbuy_url or ''` then the two regex
searches, else `''`. -/
def extractFromUrl (p : Product) : String :=
  let url := if p.product_url ≠ "" then p.product_url else p.cnfans_url.getD ""
  if url ≠ "" then
    match searchItemID url.toList with
    | some ds => String.mk ds
    | none =>
      match searchAmpId url.toList with
      | some ds => String.mk ds
      | none => ""
  else ""

/-- `auto_sender._extract_item_id(product)`. -/
def _extract_item_id (p : Product) : String :=
  match p.item_id with
  | some s => if s ≠ "" then s else extractFromUrl p
  | none => extractFromUrl p

/-- Result of one send attempt inside the loop body (`bot.py` has no say
here: `get_channel` returning `None` is `noChannel`, an exception from
`channel.send` is `failed`). -/
inductive SendOutcome where
  | ok
  | noChannel
  | failed
deriving DecidableEq

/-- The external world seen by one run of `auto_send_loop`:
`shops` is `db.get_shop_by_id`, `productsOf` the products query keyed by shop
name, `send i` the outcome of the send attempt of iteration `i`, `signalAt i`
whether `stop_sender_event` is set during the interruptible wait that follows
iteration `i`, and the `…Iso` fields are the wall-clock strings
`datetime.now().isoformat()`. -/
structure LoopEnv where
  shops : Int → Option ShopInfo
  productsOf : String → List Product
  send : Nat → SendOutcome
  signalAt : Nat → Bool
  startedIso : String
  sentIso : Nat → String

/-- One iteration of the send loop, as observed from outside: the item index
(`product_idx`), the raw identity cursor (`bot_idx`), the pool position
actually used (`bot_idx % len(active_bots)`), the chosen client, and whether
the send succeeded. -/
structure Attempt where
  item : Nat
  slot : Nat
  poolPos : Nat
  bot : BotClient
  ok : Bool
deriving DecidableEq

/-- Everything a run of (part of) `auto_send_loop` produces: the final
`task_status`, the final stored record, the attempts in order, every value
assigned to `task_status['next_product_index']` in order, and every record
passed to `db.save_sender_task_state` in order. -/
structure LoopResult where
  st : TaskStatus
  db : Option PersistedState
  attempts : List Attempt
  writes : List Nat
  saves : List PersistedState
deriving DecidableEq

/-- The `while not stop_sender_event.is_set()` loop of `auto_send_loop`
(`auto_sender.py` 234-293).  `fuel` is instantiated with
`products.length - pIdx`; since the body strictly increases `pIdx` and the
loop breaks as soon as `pIdx ≥ products.length`, running out of fuel
coincides exactly with the loop condition `product_idx >= len(products)`. -/
def runLoop (products : List Product) (active : List BotClient)
    (hact : 0 < active.length) (env : LoopEnv) :
    Nat → TaskStatus → Option PersistedState → Nat → Nat → Nat → LoopResult
  | 0, st, db, _, _, _ => ⟨st, db, [], [], []⟩
  | fuel + 1, st, db, pIdx, bIdx, iter =>
    if h : pIdx < products.length then
      let product := products.get ⟨pIdx, h⟩
      let bot := active.get ⟨bIdx % active.length, Nat.mod_lt _ hact⟩
      let eid := _extract_item_id product
      -- lines 248-254: status fields and the pre-send persist
      let st1 := { st with
        current_product := some (if eid ≠ "" then eid else product.title.take 50)
        current_account := bot.user
        next_product_index := pIdx
        next_account_index := bIdx }
      let sentOk : Bool := env.send iter = SendOutcome.ok
      -- lines 256-276: the guarded send and the success-path mutations
      let st2 := if sentOk then
          { st1 with
            sent_count := st1.sent_count + 1
            last_sent_at := some (env.sentIso iter)
            next_product_index := pIdx + 1
            next_account_index := bIdx + 1 }
        else st1
      let db2 := some (persistOf st2)
      let saves2 := persistOf st1 :: (if sentOk then [persistOf st2] else [])
      let att : Attempt := ⟨pIdx, bIdx, bIdx % active.length, bot, sentOk⟩
      let ws := pIdx :: (if sentOk then [pIdx + 1] else [])
      -- lines 283-293: the interruptible wait
      if env.signalAt iter then
        ⟨st2, db2, [att], ws, saves2⟩
      else
        let rest := runLoop products active hact env fuel st2 db2
          (pIdx + 1) (bIdx + 1) (iter + 1)
        ⟨rest.st, rest.db, att :: rest.attempts, ws ++ rest.writes,
         saves2 ++ rest.saves⟩
    else ⟨st, db, [], [], []⟩

/-- The `finally` block of `auto_send_loop` (`auto_sender.py` 300-308):
clears `is_running`; when `stop_sender_reason == 'pause'` marks paused and
persists, otherwise clears the paused flag and the stored record. -/
def finallyBlock (reason : Option String) (st : TaskStatus)
    (_db : Option PersistedState) :
    TaskStatus × Option PersistedState × List PersistedState :=
  let st1 := { st with is_running := false }
  if reason = some "pause" then
    let st2 := { st1 with is_paused := true }
    (st2, some (persistOf st2), [persistOf st2])
  else
    ({ st1 with is_paused := false }, none, [])

/-- The `active_bots` filter of `auto_send_loop` (`auto_sender.py` 214-220):
clients with an `account_id` attribute whose id is selected, that are ready
and not closed. -/
def activeBotsOf (bot_clients : List BotClient)
    (selected_account_ids : List Int) : List BotClient :=
  bot_clients.filter fun c =>
    (match c.account_id with
     | some a => selected_account_ids.contains a
     | none => false)
    && c.ready && !c.closed

/-- `auto_sender.auto_send_loop(...)` in full: the prologue that refills
`task_status` and persists it, the shop/product resolution, the
already-complete guard, the active-bot filter, the send loop, and the
`finally` block.  `reason` is the value of the global `stop_sender_reason`
read by the `finally` block, `st0`/`db0` the entry `task_status` and stored
record. -/
def auto_send_loop (env : LoopEnv) (bot_clients : List BotClient)
    (reason : Option String) (shop_id : Int) (target_channel_id : String)
    (selected_account_ids : List Int) (interval : Int)
    (start_product_index start_account_index : Int)
    (st0 : TaskStatus) (_db0 : Option PersistedState) : LoopResult :=
  -- lines 169-179: the prologue mutations and persist
  let startIdx := start_product_index.toNat
  let startBotIdx := start_account_index.toNat
  let st := { st0 with
    is_running := true
    is_paused := false
    shop_id := some shop_id
    channel_id := some target_channel_id
    account_ids := selected_account_ids
    interval := some interval
    started_at := some env.startedIso
    error := none
    next_product_index := startIdx
    next_account_index := startBotIdx }
  let db := some (persistOf st)
  let body : LoopResult :=
    match env.shops shop_id with
    | none =>
      ⟨{ st with error := some ("店铺 " ++ toString shop_id ++ " 不存在") },
       db, [], [], []⟩
    | some info =>
      let shop_name := info.name.getD ""
      let products := env.productsOf shop_name
      if products.isEmpty then
        let msg := "店铺 '" ++ shop_name ++ "' 没有商品数据，请先执行抓取"
        ⟨{ st with error := some msg }, db, [], [], []⟩
      else
        let stT := { st with total_products := products.length }
        if startIdx ≥ products.length then
          -- lines 206-211: resuming past the end is already-complete
          let stC := { stT with
            sent_count := products.length
            current_product := none }
          ⟨stC, some (persistOf stC), [], [], [persistOf stC]⟩
        else
          let active := activeBotsOf bot_clients selected_account_ids
          if hA : active.length = 0 then
            ⟨{ stT with error := some "没有选中的账号在线，请先启动账号" },
             db, [], [], []⟩
          else
            let stL := { stT with sent_count := startIdx }
            runLoop products active (Nat.pos_of_ne_zero hA) env
              (products.length - startIdx) stL db
              startIdx startBotIdx 0
  let fin := finallyBlock reason body.st body.db
  ⟨fin.1, fin.2.1, body.attempts,
   startIdx :: body.writes,
   persistOf st :: (body.saves ++ fin.2.2)⟩


/-! ## Concrete fixtures used to instantiate the theorems -/

/-- A ready client for account 1. -/
def botA : BotClient := ⟨some 1, true, false, some "alice"⟩

/-- A ready client for account 2. -/
def botB : BotClient := ⟨some 2, true, false, some "bob"⟩

/-- A two-client pool. -/
def cBots : List BotClient := [botA, botB]

/-- Three products of a sample shop. -/
def cProducts : List Product :=
  [⟨1, "u1", "t1", none, some "11"⟩,
   ⟨2, "u2", "t2", none, some "12"⟩,
   ⟨3, "u3", "t3", none, some "13"⟩]

/-- A world where the shop exists, has three products, every send succeeds
and no stop signal ever arrives. -/
def cEnv : LoopEnv :=
  ⟨fun _ => some ⟨some "shopA"⟩, fun _ => cProducts,
   fun _ => SendOutcome.ok, fun _ => false, "T0", fun i => "T" ++ toString i⟩

/-- A world where every send raises and the stop event is set during every
interruptible wait (as a pause request does). -/
def cEnvFail : LoopEnv :=
  ⟨fun _ => some ⟨some "shopA"⟩, fun _ => cProducts,
   fun _ => SendOutcome.failed, fun _ => true, "T0", fun i => "T" ++ toString i⟩

/-- A world where the shop exists but its product table is empty. -/
def cEnvEmpty : LoopEnv :=
  ⟨fun _ => some ⟨some "shopA"⟩, fun _ => [],
   fun _ => SendOutcome.ok, fun _ => false, "T0", fun i => "T" ++ toString i⟩

/-- A world where every send raises but no stop signal ever arrives, so the
loop walks all items, skipping each failed one. -/
def cEnvFailAll : LoopEnv :=
  ⟨fun _ => some ⟨some "shopA"⟩, fun _ => cProducts,
   fun _ => SendOutcome.failed, fun _ => false, "T0", fun i => "T" ++ toString i⟩

/-! ## Lemmas about the send loop -/

/-- Every attempt of a loop run: the `i`-th attempt handles item
`pIdx + i` with raw identity cursor `bIdx + i`, hence pool position
`(bIdx + i) % len(active)` — both cursors advance by exactly one per
iteration. -/
theorem runLoop_get_attempt (products : List Product) (active : List BotClient)
    (hact : 0 < active.length) (env : LoopEnv) :
    ∀ (fuel : Nat) (st : TaskStatus) (db : Option PersistedState)
      (pIdx bIdx iter i : Nat) (a : Attempt),
      (runLoop products active hact env fuel st db pIdx bIdx iter).attempts.get? i = some a →
      a.item = pIdx + i ∧ a.slot = bIdx + i ∧
      a.poolPos = (bIdx + i) % active.length := by
  intro fuel
  induction fuel with
  | zero =>
    intro st db pIdx bIdx iter i a h
    simp [runLoop] at h
  | succ fuel ih =>
    intro st db pIdx bIdx iter i a h
    by_cases hp : pIdx < products.length
    · by_cases hs : env.signalAt iter
      · simp only [runLoop, dif_pos hp, hs, if_true] at h
        cases i with
        | zero =>
          simp only [List.get?_cons_zero, Option.some.injEq] at h
          subst h
          simp
        | succ j =>
          simp [List.get?] at h
      · simp only [runLoop, dif_pos hp, hs, if_false] at h
        cases i with
        | zero =>
          simp only [List.get?, Option.some.injEq] at h
          subst h
          simp
        | succ j =>
          simp only [List.get?] at h
          have := ih _ _ (pIdx + 1) (bIdx + 1) (iter + 1) j a h
          refine ⟨?_, ?_, ?_⟩
          · rw [this.1]; omega
          · rw [this.2.1]; omega
          · rw [this.2.2]; congr 1; omega
    · simp [runLoop, dif_neg hp] at h

/-- Lowering the head of a `≤`-chain keeps it a chain. -/
theorem chain_le_head {a b : Nat} {l : List Nat} (hab : a ≤ b)
    (h : List.Chain' (· ≤ ·) (b :: l)) : List.Chain' (· ≤ ·) (a :: l) := by
  cases l with
  | nil => simp
  | cons c t =>
    rw [List.chain'_cons] at h ⊢
    exact ⟨le_trans hab h.1, h.2⟩

/-- The values assigned to `task_status['next_product_index']` inside the
loop form a non-decreasing sequence starting from the entry cursor. -/
theorem runLoop_writes_chain (products : List Product) (active : List BotClient)
    (hact : 0 < active.length) (env : LoopEnv) :
    ∀ (fuel : Nat) (st : TaskStatus) (db : Option PersistedState)
      (pIdx bIdx iter : Nat),
      List.Chain' (· ≤ ·)
        (pIdx :: (runLoop products active hact env fuel st db pIdx bIdx iter).writes) := by
  intro fuel
  induction fuel with
  | zero =>
    intro st db pIdx bIdx iter
    simp [runLoop]
  | succ fuel ih =>
    intro st db pIdx bIdx iter
    by_cases hp : pIdx < products.length
    · by_cases hs : env.signalAt iter
      · simp only [runLoop, dif_pos hp, hs, if_true]
        by_cases hok : env.send iter = SendOutcome.ok <;>
          simp [hok, List.chain'_cons]
      · simp only [runLoop, dif_pos hp, hs, if_false]
        by_cases hok : env.send iter = SendOutcome.ok
        · simp only [hok, decide_True]
          refine List.chain'_cons.mpr ⟨le_refl _, ?_⟩
          refine List.chain'_cons.mpr ⟨Nat.le_succ _, ?_⟩
          exact ih _ _ (pIdx + 1) (bIdx + 1) (iter + 1)
        · simp only [hok, decide_False]
          refine List.chain'_cons.mpr ⟨le_refl _, ?_⟩
          exact chain_le_head (Nat.le_succ _) (ih _ _ (pIdx + 1) (bIdx + 1) (iter + 1))
    · simp [runLoop, dif_neg hp]

/-- Every cursor value written inside the loop is at most the number of
products: the body only runs while `product_idx < len(products)` and writes
`product_idx` and `product_idx + 1`. -/
theorem runLoop_writes_bound (products : List Product) (active : List BotClient)
    (hact : 0 < active.length) (env : LoopEnv) :
    ∀ (fuel : Nat) (st : TaskStatus) (db : Option PersistedState)
      (pIdx bIdx iter v : Nat),
      v ∈ (runLoop products active hact env fuel st db pIdx bIdx iter).writes →
      v ≤ products.length := by
  intro fuel
  induction fuel with
  | zero =>
    intro st db pIdx bIdx iter v hv
    simp [runLoop] at hv
  | succ fuel ih =>
    intro st db pIdx bIdx iter v hv
    by_cases hp : pIdx < products.length
    · by_cases hs : env.signalAt iter
      · by_cases hok : env.send iter = SendOutcome.ok
        · simp [runLoop, dif_pos hp, hs, hok] at hv
          rcases hv with rfl | rfl
          · omega
          · omega
        · simp [runLoop, dif_pos hp, hs, hok] at hv
          omega
      · by_cases hok : env.send iter = SendOutcome.ok
        · simp [runLoop, dif_pos hp, hs, hok] at hv
          rcases hv with rfl | rfl | h
          · omega
          · omega
          · exact ih _ _ (pIdx + 1) (bIdx + 1) (iter + 1) v h
        · simp [runLoop, dif_pos hp, hs, hok] at hv
          rcases hv with rfl | h
          · omega
          · exact ih _ _ (pIdx + 1) (bIdx + 1) (iter + 1) v h
    · simp [runLoop, dif_neg hp] at hv

/-- The loop body never touches `total_products`. -/
theorem runLoop_total_products (products : List Product) (active : List BotClient)
    (hact : 0 < active.length) (env : LoopEnv) :
    ∀ (fuel : Nat) (st : TaskStatus) (db : Option PersistedState)
      (pIdx bIdx iter : Nat),
      (runLoop products active hact env fuel st db pIdx bIdx iter).st.total_products
        = st.total_products := by
  intro fuel
  induction fuel with
  | zero =>
    intro st db pIdx bIdx iter
    rfl
  | succ fuel ih =>
    intro st db pIdx bIdx iter
    by_cases hp : pIdx < products.length
    · by_cases hs : env.signalAt iter
      · by_cases hok : env.send iter = SendOutcome.ok <;>
          simp [runLoop, dif_pos hp, hs, hok]
      · by_cases hok : env.send iter = SendOutcome.ok
        · simp only [runLoop, dif_pos hp, hs, if_false, hok, decide_True]
          exact (ih _ _ (pIdx + 1) (bIdx + 1) (iter + 1)).trans rfl
        · simp only [runLoop, dif_pos hp, hs, if_false, hok, decide_False]
          exact (ih _ _ (pIdx + 1) (bIdx + 1) (iter + 1)).trans rfl
    · simp [runLoop, dif_neg hp]

/-- When the loop makes an `i`-th attempt, some record saved during the run
carries cursor `pIdx + i`: the pre-send persist of iteration `i`. -/
theorem runLoop_save_at (products : List Product) (active : List BotClient)
    (hact : 0 < active.length) (env : LoopEnv) :
    ∀ (fuel : Nat) (st : TaskStatus) (db : Option PersistedState)
      (pIdx bIdx iter i : Nat),
      i < (runLoop products active hact env fuel st db pIdx bIdx iter).attempts.length →
      ∃ s ∈ (runLoop products active hact env fuel st db pIdx bIdx iter).saves,
        s.next_product_index = pIdx + i := by
  intro fuel
  induction fuel with
  | zero =>
    intro st db pIdx bIdx iter i hi
    simp [runLoop] at hi
  | succ fuel ih =>
    intro st db pIdx bIdx iter i hi
    by_cases hp : pIdx < products.length
    · by_cases hs : env.signalAt iter
      · simp only [runLoop, dif_pos hp, hs, if_true] at hi ⊢
        cases i with
        | zero => exact ⟨_, List.mem_cons_self _ _, rfl⟩
        | succ j => simp at hi
      · simp only [runLoop, dif_pos hp, hs, if_false] at hi ⊢
        cases i with
        | zero => exact ⟨_, List.mem_cons_self _ _, rfl⟩
        | succ j =>
          have hj := Nat.lt_of_succ_lt_succ hi
          obtain ⟨s, hsmem, hsval⟩ := ih _ _ (pIdx + 1) (bIdx + 1) (iter + 1) j hj
          refine ⟨s, ?_, by omega⟩
          exact List.mem_cons_of_mem _ (List.mem_append_right _ hsmem)
    · simp [runLoop, dif_neg hp] at hi

/-! ## Claim theorems -/

/-- The `i`-th attempt of a full `auto_send_loop` run handles item
`max(0, start_product_index) + i` with identity cursor
`max(0, start_account_index) + i` and pool position `(k + i) mod N`
(shared helper behind the claim theorems). -/
theorem auto_send_loop_get_attempt (env : LoopEnv) (bot_clients : List BotClient)
    (reason : Option String) (shop_id : Int) (ch : String) (accs : List Int)
    (itv sp sa : Int) (st0 : TaskStatus) (db0 : Option PersistedState)
    (i : Nat) (a : Attempt)
    (h : (auto_send_loop env bot_clients reason shop_id ch accs itv sp sa st0 db0).attempts.get? i
        = some a) :
    a.item = sp.toNat + i ∧ a.slot = sa.toNat + i ∧
    a.poolPos = (sa.toNat + i) % (activeBotsOf bot_clients accs).length := by
  simp only [auto_send_loop] at h
  cases henv : env.shops shop_id with
  | none =>
    simp only [henv] at h
    simp at h
  | some info =>
    simp only [henv] at h
    by_cases hemp : (env.productsOf (info.name.getD "")).isEmpty
    · simp only [hemp, if_true] at h
      simp at h
    · simp only [hemp, if_false] at h
      by_cases hge : sp.toNat ≥ (env.productsOf (info.name.getD "")).length
      · simp only [if_pos hge] at h
        simp at h
      · simp only [if_neg hge] at h
        by_cases hA : (activeBotsOf bot_clients accs).length = 0
        · simp only [dif_pos hA] at h
          simp at h
        · simp only [dif_neg hA] at h
          exact runLoop_get_attempt _ _ (Nat.pos_of_ne_zero hA) env _ _ _
            (sp.toNat) (sa.toNat) 0 i a h

/-- Index bound from a successful `get?` on the attempts of a loop run. -/
theorem get?_some_lt_length {α : Type} {l : List α} {i : Nat} {a : α}
    (h : l.get? i = some a) : i < l.length := by
  by_contra hc
  push_neg at hc
  rw [List.get?_eq_none.mpr hc] at h
  exact Option.noConfusion h

/-- Every attempted item's cursor value is persisted during the run: the
pre-send save of that iteration stores exactly that cursor (shared helper). -/
theorem auto_send_loop_save_at (env : LoopEnv) (bot_clients : List BotClient)
    (reason : Option String) (shop_id : Int) (ch : String) (accs : List Int)
    (itv sp sa : Int) (st0 : TaskStatus) (db0 : Option PersistedState)
    (i : Nat) (a : Attempt)
    (h : (auto_send_loop env bot_clients reason shop_id ch accs itv sp sa st0 db0).attempts.get? i
        = some a) :
    ∃ s ∈ (auto_send_loop env bot_clients reason shop_id ch accs itv sp sa st0 db0).saves,
      s.next_product_index = a.item := by
  have hitem :=
    (auto_send_loop_get_attempt env bot_clients reason shop_id ch accs itv sp sa st0 db0 i a h).1
  simp only [auto_send_loop] at h ⊢
  cases henv : env.shops shop_id with
  | none =>
    simp only [henv] at h
    simp at h
  | some info =>
    simp only [henv] at h ⊢
    by_cases hemp : (env.productsOf (info.name.getD "")).isEmpty
    · simp only [hemp, if_true] at h
      simp at h
    · simp only [hemp, if_false] at h ⊢
      by_cases hge : sp.toNat ≥ (env.productsOf (info.name.getD "")).length
      · simp only [if_pos hge] at h
        simp at h
      · simp only [if_neg hge] at h ⊢
        by_cases hA : (activeBotsOf bot_clients accs).length = 0
        · simp only [dif_pos hA] at h
          simp at h
        · simp only [dif_neg hA] at h ⊢
          have hlen := get?_some_lt_length h
          obtain ⟨s, hsmem, hsval⟩ :=
            runLoop_save_at _ _ (Nat.pos_of_ne_zero hA) env _ _ _
              (sp.toNat) (sa.toNat) 0 i hlen
          refine ⟨s, ?_, by omega⟩
          exact List.mem_cons_of_mem _ (List.mem_append_left _ hsmem)

/-- C3: for every campaign run with a fixed active-bot pool of size `N` and
starting identity cursor `k = max(0, start_account_index)`, the identity
selected to send the `i`-th item (counting from the starting item cursor) is
`pool[(k + i) mod N]` — attempt `i` uses pool position `(k + i) mod N` — and
both cursors advance by exactly 1 per loop iteration: attempt `i` carries
item cursor `max(0, start_product_index) + i` and identity cursor `k + i`. -/
theorem auto_send_loop_round_robin (env : LoopEnv) (bot_clients : List BotClient)
    (reason : Option String) (shop_id : Int) (ch : String) (accs : List Int)
    (itv sp sa : Int) (st0 : TaskStatus) (db0 : Option PersistedState)
    (i : Nat) (a : Attempt)
    (h : (auto_send_loop env bot_clients reason shop_id ch accs itv sp sa st0 db0).attempts.get? i
        = some a) :
    a.item = sp.toNat + i ∧ a.slot = sa.toNat + i ∧
    a.poolPos = (sa.toNat + i) % (activeBotsOf bot_clients accs).length :=
  auto_send_loop_get_attempt env bot_clients reason shop_id ch accs itv sp sa st0 db0 i a h

/-- Witness for C3: a concrete three-item run over a two-client pool; the
third attempt (i = 2) uses item 2, identity cursor 2 and pool position
`2 mod 2 = 0`. -/
theorem auto_send_loop_round_robin_witness :
    (⟨2, 2, 0, botA, true⟩ : Attempt).item = (0 : Int).toNat + 2 ∧
    (⟨2, 2, 0, botA, true⟩ : Attempt).slot = (0 : Int).toNat + 2 ∧
    (⟨2, 2, 0, botA, true⟩ : Attempt).poolPos
      = ((0 : Int).toNat + 2) % (activeBotsOf cBots [1, 2]).length :=
  auto_send_loop_round_robin cEnv cBots none 1 "5" [1, 2] 60 0 0 initTaskStatus none
    2 ⟨2, 2, 0, botA, true⟩ (by decide)

/-- The `finally` block never changes `total_products`. -/
theorem finallyBlock_total (r : Option String) (st : TaskStatus)
    (d : Option PersistedState) :
    (finallyBlock r st d).1.total_products = st.total_products := by
  unfold finallyBlock
  by_cases h : r = some "pause" <;> simp [h]

/-- C4 (amended): over the whole lifetime of a run, the values taken by the
item cursor `next_product_index` form a monotonically non-decreasing
sequence; every cursor value after the initial one (which is
`max(0, start_product_index)` and may exceed the product count when resuming
against a shrunk product list) is at most `total_products`. -/
theorem auto_send_loop_cursor_monotone (env : LoopEnv) (bots : List BotClient)
    (reason : Option String) (shop_id : Int) (ch : String) (accs : List Int)
    (itv sp sa : Int) (st0 : TaskStatus) (db0 : Option PersistedState) :
    List.Chain' (· ≤ ·)
      (auto_send_loop env bots reason shop_id ch accs itv sp sa st0 db0).writes ∧
    ∀ v ∈ (auto_send_loop env bots reason shop_id ch accs itv sp sa st0 db0).writes.tail,
      v ≤ (auto_send_loop env bots reason shop_id ch accs itv sp sa st0 db0).st.total_products := by
  constructor
  · simp only [auto_send_loop]
    cases henv : env.shops shop_id with
    | none => simp
    | some info =>
      simp only [henv]
      by_cases hemp : (env.productsOf (info.name.getD "")).isEmpty
      · simp only [hemp, if_true]
        simp
      · simp only [hemp, if_false]
        by_cases hge : sp.toNat ≥ (env.productsOf (info.name.getD "")).length
        · simp only [if_pos hge]
          simp
        · simp only [if_neg hge]
          by_cases hA : (activeBotsOf bots accs).length = 0
          · simp only [dif_pos hA]
            simp
          · simp only [dif_neg hA]
            exact runLoop_writes_chain _ _ (Nat.pos_of_ne_zero hA) env _ _ _
              (sp.toNat) (sa.toNat) 0
  · intro v hv
    simp only [auto_send_loop] at hv
    cases henv : env.shops shop_id with
    | none =>
      simp only [henv] at hv
      simp at hv
    | some info =>
      simp only [henv] at hv
      by_cases hemp : (env.productsOf (info.name.getD "")).isEmpty
      · simp only [hemp, if_true] at hv
        simp at hv
      · simp only [hemp, if_false] at hv
        by_cases hge : sp.toNat ≥ (env.productsOf (info.name.getD "")).length
        · simp only [if_pos hge] at hv
          simp at hv
        · simp only [if_neg hge] at hv
          by_cases hA : (activeBotsOf bots accs).length = 0
          · simp only [dif_pos hA] at hv
            simp at hv
          · simp only [dif_neg hA] at hv
            have htot : (auto_send_loop env bots reason shop_id ch accs itv sp sa st0 db0).st.total_products
                = (env.productsOf (info.name.getD "")).length := by
              simp only [auto_send_loop, henv, hemp, if_false, if_neg hge, dif_neg hA]
              exact (finallyBlock_total _ _ _).trans
                (runLoop_total_products _ _ _ _ _ _ _ _ _ _)
            rw [htot]
            exact runLoop_writes_bound _ _ (Nat.pos_of_ne_zero hA) env _ _ _
              (sp.toNat) (sa.toNat) 0 v hv

/-- Witness for C4 (amended): in the concrete three-item run the cursor
trace is a `≤`-chain and the trace value `1` (a tail element) is at most
`total_products = 3`. -/
theorem auto_send_loop_cursor_monotone_witness :
    List.Chain' (· ≤ ·)
      (auto_send_loop cEnv cBots none 1 "5" [1, 2] 60 0 0 initTaskStatus none).writes ∧
    1 ≤ (auto_send_loop cEnv cBots none 1 "5" [1, 2] 60 0 0 initTaskStatus none).st.total_products :=
  ⟨(auto_send_loop_cursor_monotone cEnv cBots none 1 "5" [1, 2] 60 0 0
      initTaskStatus none).1,
   (auto_send_loop_cursor_monotone cEnv cBots none 1 "5" [1, 2] 60 0 0
      initTaskStatus none).2 1 (by decide)⟩

/-- Counterexample for C4 as stated: resuming with starting cursor 5 against
a three-product shop leaves the item cursor at 5 while `total_products` is 3,
so the cursor exceeds `total_count` over the run's lifetime. -/
theorem auto_send_loop_cursor_bound_cex :
    (auto_send_loop cEnv cBots none 1 "5" [1] 60 5 0 initTaskStatus none).st.total_products
      < (auto_send_loop cEnv cBots none 1 "5" [1] 60 5 0 initTaskStatus none).st.next_product_index ∧
    (auto_send_loop cEnv cBots none 1 "5" [1] 60 5 0 initTaskStatus none).st.total_products = 3 ∧
    (auto_send_loop cEnv cBots none 1 "5" [1] 60 5 0 initTaskStatus none).st.next_product_index = 5 := by
  decide

/-- C6 (amended): a failed attempt is never retried within the run and both
loop cursors still advance by exactly 1 — consecutive attempts use
consecutive item and identity cursors, and no two attempts share an item —
but the advanced cursor reaches the store only with the pre-send persist of
the next iteration (or the success persist of a later send): what is persisted
for attempt `i` is its own (un-advanced) cursor, so a pause or crash right
after a failure resumes at the failed item. -/
theorem auto_send_loop_failure_policy (env : LoopEnv) (bots : List BotClient)
    (reason : Option String) (shop_id : Int) (ch : String) (accs : List Int)
    (itv sp sa : Int) (st0 : TaskStatus) (db0 : Option PersistedState) :
    (∀ i a b,
      (auto_send_loop env bots reason shop_id ch accs itv sp sa st0 db0).attempts.get? i = some a →
      (auto_send_loop env bots reason shop_id ch accs itv sp sa st0 db0).attempts.get? (i + 1) = some b →
      b.item = a.item + 1 ∧ b.slot = a.slot + 1) ∧
    (∀ i j a b,
      (auto_send_loop env bots reason shop_id ch accs itv sp sa st0 db0).attempts.get? i = some a →
      (auto_send_loop env bots reason shop_id ch accs itv sp sa st0 db0).attempts.get? j = some b →
      i ≠ j → a.item ≠ b.item) ∧
    (∀ i a,
      (auto_send_loop env bots reason shop_id ch accs itv sp sa st0 db0).attempts.get? i = some a →
      ∃ s ∈ (auto_send_loop env bots reason shop_id ch accs itv sp sa st0 db0).saves,
        s.next_product_index = a.item) := by
  refine ⟨?_, ?_, ?_⟩
  · intro i a b ha hb
    have Ha := auto_send_loop_get_attempt env bots reason shop_id ch accs itv sp sa st0 db0 i a ha
    have Hb := auto_send_loop_get_attempt env bots reason shop_id ch accs itv sp sa st0 db0 (i + 1) b hb
    refine ⟨?_, ?_⟩
    · rw [Ha.1, Hb.1]; omega
    · rw [Ha.2.1, Hb.2.1]; omega
  · intro i j a b ha hb hij
    have Ha := auto_send_loop_get_attempt env bots reason shop_id ch accs itv sp sa st0 db0 i a ha
    have Hb := auto_send_loop_get_attempt env bots reason shop_id ch accs itv sp sa st0 db0 j b hb
    rw [Ha.1, Hb.1]
    omega
  · exact auto_send_loop_save_at env bots reason shop_id ch accs itv sp sa st0 db0

/-- Witness for C6 (amended): a run in which every send fails still advances
from attempt 0 (item 0) to attempt 1 (item 1), and the cursor of attempt 1 is
among the persisted records. -/
theorem auto_send_loop_failure_policy_witness :
    ((⟨1, 1, 1, botB, false⟩ : Attempt).item = (⟨0, 0, 0, botA, false⟩ : Attempt).item + 1 ∧
     (⟨1, 1, 1, botB, false⟩ : Attempt).slot = (⟨0, 0, 0, botA, false⟩ : Attempt).slot + 1) ∧
    ∃ s ∈ (auto_send_loop cEnvFailAll cBots none 1 "5" [1, 2] 60 0 0 initTaskStatus none).saves,
      s.next_product_index = (⟨1, 1, 1, botB, false⟩ : Attempt).item :=
  ⟨(auto_send_loop_failure_policy cEnvFailAll cBots none 1 "5" [1, 2] 60 0 0
      initTaskStatus none).1 0 ⟨0, 0, 0, botA, false⟩ ⟨1, 1, 1, botB, false⟩
      (by decide) (by decide),
   (auto_send_loop_failure_policy cEnvFailAll cBots none 1 "5" [1, 2] 60 0 0
      initTaskStatus none).2.2 1 ⟨1, 1, 1, botB, false⟩ (by decide)⟩

/-- Counterexample for C6 as stated: item 0 fails, the pause signal arrives
during the following wait, and the state persisted on exit still carries
`next_product_index = 0` — the advanced cursor (1) was never persisted, so
the failed item will be retried on resume. -/
theorem auto_send_loop_failure_persist_cex :
    (auto_send_loop cEnvFail cBots (some "pause") 1 "5" [1, 2] 60 0 0 initTaskStatus none).attempts
      = [⟨0, 0, 0, botA, false⟩] ∧
    ((auto_send_loop cEnvFail cBots (some "pause") 1 "5" [1, 2] 60 0 0 initTaskStatus none).db.map
        PersistedState.next_product_index) = some 0 ∧
    ((auto_send_loop cEnvFail cBots (some "pause") 1 "5" [1, 2] 60 0 0 initTaskStatus none).saves.map
        PersistedState.next_product_index) = [0, 0, 0] := by
  decide

/-- With any stop reason other than `'pause'`, the `finally` block clears the
paused flag and the stored record. -/
theorem finallyBlock_not_pause (r : Option String) (st : TaskStatus)
    (d : Option PersistedState) (h : r ≠ some "pause") :
    finallyBlock r st d
      = ({ st with is_running := false, is_paused := false }, none, []) := by
  unfold finallyBlock
  rw [if_neg h]

/-- C9 (amended): provided the shop exists and has at least one product, a
run whose starting item cursor is already at or past the product count is
treated as already complete: `sent_count` is set to the product count, no
send is attempted, and (with no pause signal pending) the stored record is
cleared on exit with the task neither running nor paused. -/
theorem auto_send_loop_already_complete (env : LoopEnv) (bots : List BotClient)
    (reason : Option String) (shop_id : Int) (ch : String) (accs : List Int)
    (itv sp sa : Int) (st0 : TaskStatus) (db0 : Option PersistedState)
    (info : ShopInfo)
    (hshop : env.shops shop_id = some info)
    (hne : ¬(env.productsOf (info.name.getD "")).isEmpty)
    (hge : sp.toNat ≥ (env.productsOf (info.name.getD "")).length)
    (hrs : reason ≠ some "pause") :
    (auto_send_loop env bots reason shop_id ch accs itv sp sa st0 db0).st.sent_count
      = (env.productsOf (info.name.getD "")).length ∧
    (auto_send_loop env bots reason shop_id ch accs itv sp sa st0 db0).attempts = [] ∧
    (auto_send_loop env bots reason shop_id ch accs itv sp sa st0 db0).db = none ∧
    (auto_send_loop env bots reason shop_id ch accs itv sp sa st0 db0).st.is_running = false ∧
    (auto_send_loop env bots reason shop_id ch accs itv sp sa st0 db0).st.is_paused = false := by
  simp only [auto_send_loop, hshop, if_neg hne, if_pos hge,
    finallyBlock_not_pause _ _ _ hrs]
  simp

/-- Witness for C9 (amended): resuming the concrete three-product campaign
with starting cursor 5 completes immediately. -/
theorem auto_send_loop_already_complete_witness :
    (auto_send_loop cEnv cBots none 1 "5" [1, 2] 60 5 0 initTaskStatus none).st.sent_count
      = (cEnv.productsOf ((ShopInfo.mk (some "shopA")).name.getD "")).length ∧
    (auto_send_loop cEnv cBots none 1 "5" [1, 2] 60 5 0 initTaskStatus none).attempts = [] ∧
    (auto_send_loop cEnv cBots none 1 "5" [1, 2] 60 5 0 initTaskStatus none).db = none ∧
    (auto_send_loop cEnv cBots none 1 "5" [1, 2] 60 5 0 initTaskStatus none).st.is_running = false ∧
    (auto_send_loop cEnv cBots none 1 "5" [1, 2] 60 5 0 initTaskStatus none).st.is_paused = false :=
  auto_send_loop_already_complete cEnv cBots none 1 "5" [1, 2] 60 5 0
    initTaskStatus none ⟨some "shopA"⟩ (by decide) (by decide) (by decide) (by decide)

/-- Counterexample for C9 as stated: resuming with cursor 3 (set by
`start_sending_task` with `resume=True`, which also forces `sent_count` to 3)
against a shop whose product table is now empty takes the no-products error
branch instead: the run attempts nothing and clears the stored record, but
`sent_count` stays 3 instead of being set to the item count 0, and an error
is recorded. -/
theorem auto_send_loop_already_complete_cex :
    cEnvEmpty.productsOf "shopA" = [] ∧
    (auto_send_loop cEnvEmpty cBots none 1 "5" [1] 60 3 0
        (start_sending_task ⟨false, none, initTaskStatus⟩ 1 "5" [1] 60 3 0 true).2.1.status
        none).st.sent_count = 3 ∧
    (auto_send_loop cEnvEmpty cBots none 1 "5" [1] 60 3 0
        (start_sending_task ⟨false, none, initTaskStatus⟩ 1 "5" [1] 60 3 0 true).2.1.status
        none).attempts = [] ∧
    (auto_send_loop cEnvEmpty cBots none 1 "5" [1] 60 3 0
        (start_sending_task ⟨false, none, initTaskStatus⟩ 1 "5" [1] 60 3 0 true).2.1.status
        none).db = none ∧
    (auto_send_loop cEnvEmpty cBots none 1 "5" [1] 60 3 0
        (start_sending_task ⟨false, none, initTaskStatus⟩ 1 "5" [1] 60 3 0 true).2.1.status
        none).st.error ≠ none := by
  decide

/-- C1: a start request issued while the task is running, or paused, with
`resume=False`, is rejected regardless of the shop, channel, account-id and
interval parameters: the reply has `success=False`, the module state is left
untouched, and no loop coroutine is submitted. -/
theorem start_sending_task_rejects_active (g : SenderGlobals) (shop_id : Int)
    (ch : String) (accs : List Int) (itv sp sa : Int)
    (h : g.status.is_running = true ∨ g.status.is_paused = true) :
    (start_sending_task g shop_id ch accs itv sp sa false).1.success = false ∧
    (start_sending_task g shop_id ch accs itv sp sa false).2.1 = g ∧
    (start_sending_task g shop_id ch accs itv sp sa false).2.2 = none := by
  have hc : g.status.is_running = true ∨
      (g.status.is_paused = true ∧ ¬(false : Bool) = true) := by
    rcases h with h | h
    · exact Or.inl h
    · exact Or.inr ⟨h, by simp⟩
  unfold start_sending_task
  rw [if_pos hc]
  exact ⟨rfl, rfl, rfl⟩

/-- Witness for C1: starting over a paused status is rejected. -/
theorem start_sending_task_rejects_active_witness :
    (start_sending_task ⟨false, none, { initTaskStatus with is_paused := true }⟩
        7 "chan" [1, 2] 60 0 0 false).1.success = false ∧
    (start_sending_task ⟨false, none, { initTaskStatus with is_paused := true }⟩
        7 "chan" [1, 2] 60 0 0 false).2.1
      = ⟨false, none, { initTaskStatus with is_paused := true }⟩ ∧
    (start_sending_task ⟨false, none, { initTaskStatus with is_paused := true }⟩
        7 "chan" [1, 2] 60 0 0 false).2.2 = none :=
  start_sending_task_rejects_active ⟨false, none, { initTaskStatus with is_paused := true }⟩
    7 "chan" [1, 2] 60 0 0 (Or.inr (by decide))

/-- C2: loading a stored record that is marked running (and has a truthy
shop id and channel id, as every record persisted by a running loop does)
reclassifies it: the in-memory status has `is_running=False` and
`is_paused=True`, and exactly that paused status is re-persisted before the
function returns. -/
theorem load_task_state_reclassifies_running (st : TaskStatus) (ps : PersistedState)
    (hrun : ps.is_running = true)
    (hsh : truthyOptInt ps.shop_id = true)
    (hch : truthyOptStr ps.channel_id = true) :
    (load_task_state st (some ps)).1.is_running = false ∧
    (load_task_state st (some ps)).1.is_paused = true ∧
    (load_task_state st (some ps)).2 = some (persistOf (load_task_state st (some ps)).1) ∧
    ∀ q, (load_task_state st (some ps)).2 = some q →
      q.is_running = false ∧ q.is_paused = true := by
  simp only [load_task_state, hsh, hch, hrun, and_self, if_true]
  refine ⟨trivial, trivial, trivial, ?_⟩
  intro q hq
  rw [Option.some.injEq] at hq
  rw [← hq]
  exact ⟨rfl, rfl⟩

/-- Witness for C2: a concrete running record is loaded as paused and
re-persisted as paused. -/
theorem load_task_state_reclassifies_running_witness :
    (load_task_state initTaskStatus (some ⟨true, false, some 1, some "5", [1],
        some 60, 3, 1, 1, 1, none, none, some "T0", none⟩)).1.is_running = false ∧
    (load_task_state initTaskStatus (some ⟨true, false, some 1, some "5", [1],
        some 60, 3, 1, 1, 1, none, none, some "T0", none⟩)).1.is_paused = true ∧
    (load_task_state initTaskStatus (some ⟨true, false, some 1, some "5", [1],
        some 60, 3, 1, 1, 1, none, none, some "T0", none⟩)).2
      = some (persistOf (load_task_state initTaskStatus (some ⟨true, false, some 1,
          some "5", [1], some 60, 3, 1, 1, 1, none, none, some "T0", none⟩)).1) ∧
    ∀ q, (load_task_state initTaskStatus (some ⟨true, false, some 1, some "5", [1],
        some 60, 3, 1, 1, 1, none, none, some "T0", none⟩)).2 = some q →
      q.is_running = false ∧ q.is_paused = true :=
  load_task_state_reclassifies_running initTaskStatus
    ⟨true, false, some 1, some "5", [1], some 60, 3, 1, 1, 1, none, none, some "T0", none⟩
    (by decide) (by decide) (by decide)

/-- C7: a resume request made while none of the stored campaign's configured
account ids corresponds to a ready, non-closed client is rejected, and the
stored record is neither saved nor cleared (it is returned unchanged); no
loop coroutine is submitted. -/
theorem resume_sending_task_rejects_offline (g : SenderGlobals)
    (bots : List BotClient) (ps : PersistedState)
    (hsh : truthyOptInt ps.shop_id = true)
    (hch : truthyOptStr ps.channel_id = true)
    (hoff : _has_online_bots bots ps.account_ids = false) :
    (resume_sending_task g (some ps) bots).1.success = false ∧
    (resume_sending_task g (some ps) bots).2.2.1 = some ps ∧
    (resume_sending_task g (some ps) bots).2.2.2 = none := by
  simp only [resume_sending_task, hsh, hch, and_self, if_true]
  by_cases hr : g.status.is_running = true
  · rw [if_pos hr]
    exact ⟨rfl, rfl, rfl⟩
  · rw [if_neg hr, if_neg (by simp [hoff])]
    exact ⟨rfl, rfl, rfl⟩

/-- Witness for C7: resuming a stored campaign configured for account 3 while
only clients 1 and 2 are connected is rejected and leaves the record as it
was. -/
theorem resume_sending_task_rejects_offline_witness :
    (resume_sending_task ⟨false, none, initTaskStatus⟩ (some ⟨false, true, some 1,
        some "5", [3], some 60, 3, 1, 1, 1, none, none, some "T0", none⟩) cBots).1.success = false ∧
    (resume_sending_task ⟨false, none, initTaskStatus⟩ (some ⟨false, true, some 1,
        some "5", [3], some 60, 3, 1, 1, 1, none, none, some "T0", none⟩) cBots).2.2.1
      = some ⟨false, true, some 1, some "5", [3], some 60, 3, 1, 1, 1, none, none,
          some "T0", none⟩ ∧
    (resume_sending_task ⟨false, none, initTaskStatus⟩ (some ⟨false, true, some 1,
        some "5", [3], some 60, 3, 1, 1, 1, none, none, some "T0", none⟩) cBots).2.2.2 = none :=
  resume_sending_task_rejects_offline ⟨false, none, initTaskStatus⟩ cBots
    ⟨false, true, some 1, some "5", [3], some 60, 3, 1, 1, 1, none, none, some "T0", none⟩
    (by decide) (by decide) (by decide)

/-- A freshly stored key is found with its stored timestamp. -/
theorem tblGet_tblSet_self (tbl : CooldownTbl) (k : CooldownKey) (v : Int) :
    tblGet (tblSet tbl k v) k = some v := by
  simp [tblGet, tblSet, List.find?]

/-- C5 (amended): `is_account_on_cooldown` treats a missing entry as
`last_sent = 0` (the epoch), so with no entry it reports no cooldown exactly
when `interval ≤ now` (always the case for a real clock); it reports a
cooldown immediately after `set_account_cooldown` (for a positive interval);
it reports no cooldown once `interval` seconds have elapsed since the mark;
and for an existing entry with timestamp `L` it returns exactly
`now - L < interval`. -/
theorem is_account_on_cooldown_behavior (a c : PyVal) (ai : Int)
    (ha : a.toInt? = some ai) (interval t now now2 anyNow : Int)
    (hpos : 0 < interval) (hreal : interval ≤ now)
    (helapsed : t + interval ≤ now2) :
    is_account_on_cooldown [] a c interval now = some false ∧
    (∀ tbl tbl', set_account_cooldown tbl a c t = some tbl' →
      is_account_on_cooldown tbl' a c interval t = some true ∧
      is_account_on_cooldown tbl' a c interval now2 = some false) ∧
    (∀ tbl L, tblGet tbl (ai, c.toStr) = some L →
      is_account_on_cooldown tbl a c interval anyNow
        = some (decide (anyNow - L < interval))) := by
  refine ⟨?_, ?_, ?_⟩
  · simp only [is_account_on_cooldown, ha, Option.map_some', Option.some.injEq,
      tblGet, List.find?_nil, Option.map_none', Option.getD_none]
    exact decide_eq_false (by omega)
  · intro tbl tbl' hset
    rw [set_account_cooldown, ha, Option.map_some', Option.some.injEq] at hset
    subst hset
    constructor
    · simp only [is_account_on_cooldown, ha, Option.map_some', Option.some.injEq,
        tblGet_tblSet_self, Option.getD_some]
      exact decide_eq_true (by omega)
    · simp only [is_account_on_cooldown, ha, Option.map_some', Option.some.injEq,
        tblGet_tblSet_self, Option.getD_some]
      exact decide_eq_false (by omega)
  · intro tbl L hL
    simp only [is_account_on_cooldown, ha, Option.map_some', hL, Option.getD_some,
      Option.some.injEq]

/-- Witness for C5 (amended): account 1, channel 9, interval 60: no cooldown
on the empty table at time 1000, cooldown right after a mark at time 1000,
no cooldown at time 1060, and the general formula on a table holding
timestamp 950 at time 1000. -/
theorem is_account_on_cooldown_behavior_witness :
    is_account_on_cooldown [] (.int 1) (.str "9") 60 1000 = some false ∧
    (∀ tbl tbl', set_account_cooldown tbl (.int 1) (.str "9") 1000 = some tbl' →
      is_account_on_cooldown tbl' (.int 1) (.str "9") 60 1000 = some true ∧
      is_account_on_cooldown tbl' (.int 1) (.str "9") 60 1060 = some false) ∧
    (∀ tbl L, tblGet tbl (1, (PyVal.str "9").toStr) = some L →
      is_account_on_cooldown tbl (.int 1) (.str "9") 60 1000
        = some (decide (1000 - L < 60))) :=
  is_account_on_cooldown_behavior (.int 1) (.str "9") 1 (by decide)
    60 1000 1000 1060 1000 (by decide) (by decide) (by decide)

/-- Counterexample for C5 as stated: with an empty table (no cooldown entry
exists) but a simulated clock at 5 and interval 10, the function reports the
account as on cooldown, because the missing entry defaults to `last_sent = 0`
and `5 - 0 < 10`. -/
theorem is_account_on_cooldown_empty_cex :
    is_account_on_cooldown [] (.int 1) (.str "9") 10 5 = some true := by
  decide

/-- C10: both cooldown functions normalize the key to
`(int(account_id), str(channel_id))`, so calls made with numeric or string
representations of the same ids hit the same entry: after a mark through any
representation, a query through any other representation of the same pair
observes it (returning exactly `now - t < interval`). -/
theorem cooldown_key_normalization (a a' c c' : PyVal) (ai : Int)
    (ha : a.toInt? = some ai) (ha' : a'.toInt? = some ai)
    (hc : c.toStr = c'.toStr) (tbl tbl' : CooldownTbl) (t interval now : Int)
    (hset : set_account_cooldown tbl a c t = some tbl') :
    is_account_on_cooldown tbl' a' c' interval now
      = some (decide (now - t < interval)) := by
  rw [set_account_cooldown, ha, Option.map_some', Option.some.injEq] at hset
  subst hset
  simp only [is_account_on_cooldown, ha', Option.map_some', Option.some.injEq]
  rw [← hc, tblGet_tblSet_self, Option.getD_some]

/-- Witness for C10: `set_account_cooldown("5", 123)` at time 100 followed by
`is_account_on_cooldown(5, "123", 60)` at time 120 observes the mark. -/
theorem cooldown_key_normalization_witness :
    is_account_on_cooldown [((5, "123"), 100)] (.int 5) (.str "123") 60 120
      = some (decide ((120 : Int) - 100 < 60)) :=
  cooldown_key_normalization (.str "5") (.int 5) (.int 123) (.str "123") 5
    (by decide) (by decide) (by decide) [] [((5, "123"), 100)] 100 60 120 (by decide)

/-- C8 (amended): in the reactive send stage, a successful rich send is
followed by marking the sender's cooldown; if the rich send fails, a plain
text-only send is attempted when the reply has text content (and cooldown is
marked once the fallback block completes without raising — also in the
image-only case where there is no text and no plain send is attempted); if
both sends fail the exception is only logged, no cooldown is marked, and
nothing is delivered; every message the stage ever sends is one of the two
reply forms — no error message is sent into the destination channel. -/
theorem reply_send_stage_policy (acc ch : Int) (content : String) (files : Nat)
    (richOk plainOk : Bool) (hacc : acc ≠ 0) :
    (richOk = true → ¬(content = "" ∧ files = 0) →
      (reply_send_stage (some acc) ch content files richOk plainOk).cooldownMarks = [(acc, ch)] ∧
      (reply_send_stage (some acc) ch content files richOk plainOk).delivered
        = [⟨true, content, files⟩]) ∧
    (richOk = false → content ≠ "" →
      (reply_send_stage (some acc) ch content files richOk plainOk).calls
        = [⟨true, content, files⟩, ⟨false, content, 0⟩] ∧
      (plainOk = true →
        (reply_send_stage (some acc) ch content files richOk plainOk).cooldownMarks = [(acc, ch)] ∧
        (reply_send_stage (some acc) ch content files richOk plainOk).delivered
          = [⟨false, content, 0⟩])) ∧
    (richOk = false → plainOk = false → content ≠ "" →
      (reply_send_stage (some acc) ch content files richOk plainOk).cooldownMarks = [] ∧
      (reply_send_stage (some acc) ch content files richOk plainOk).delivered = [] ∧
      (reply_send_stage (some acc) ch content files richOk plainOk).errorLogged = true) ∧
    (∀ call ∈ (reply_send_stage (some acc) ch content files richOk plainOk).calls,
      call = ⟨true, content, files⟩ ∨ call = ⟨false, content, 0⟩) := by
  unfold reply_send_stage markIf
  split_ifs with h1 h2 h3 h4 <;> simp_all

/-- Witness for C8 (amended): a successful rich send marks the cooldown and
delivers the rich call; a doubly-failing send marks nothing, delivers
nothing, and only logs. -/
theorem reply_send_stage_policy_witness :
    ((reply_send_stage (some 7) 99 "hi" 0 true true).cooldownMarks = [(7, 99)] ∧
     (reply_send_stage (some 7) 99 "hi" 0 true true).delivered = [⟨true, "hi", 0⟩]) ∧
    ((reply_send_stage (some 7) 99 "hi" 2 false false).cooldownMarks = [] ∧
     (reply_send_stage (some 7) 99 "hi" 2 false false).delivered = [] ∧
     (reply_send_stage (some 7) 99 "hi" 2 false false).errorLogged = true) :=
  ⟨(reply_send_stage_policy 7 99 "hi" 0 true true (by decide)).1 rfl (by decide),
   (reply_send_stage_policy 7 99 "hi" 2 false false (by decide)).2.2.1 rfl rfl (by decide)⟩

/-- Counterexample for C8 as stated: an image-only reply (no text content,
two files) whose rich send fails makes no plain fallback send at all — the
only `channel.send` call is the rich one — yet the cooldown is still marked. -/
theorem reply_send_stage_fallback_cex :
    (reply_send_stage (some 7) 99 "" 2 false true).calls = [⟨true, "", 2⟩] ∧
    (reply_send_stage (some 7) 99 "" 2 false true).cooldownMarks = [(7, 99)] := by
  decide
